import Mathlib

/-!
Shallow embedding of `src/catalog/models.py`, the data layer of a small
library-catalog application: entities Genre, Language, Author, Book and
BookInstance, their declared field options, and the behaviour the declared
options require of the storage collaborator (unique constraint on
`Book.isbn`, `on_delete` referential actions, default query ordering).
Pure helpers (`is_overdue`, `display_genre`, the string representations)
are translated directly from the Python source; the storage operations are
modelled from the spec where noted, faithful to the declarations in the
source file.
-/

namespace Catalog

/-- Calendar date as in the Python `datetime.date` values used by the model:
dates compare lexicographically on (year, month, day). -/
structure Date where
  year : Nat
  month : Nat
  day : Nat
deriving DecidableEq

/-- Python date comparison `a < b` (equivalently `b > a`): lexicographic on
(year, month, day). -/
def dateLt (a b : Date) : Bool :=
  decide (a.year < b.year ∨ (a.year = b.year ∧
    (a.month < b.month ∨ (a.month = b.month ∧ a.day < b.day))))

/-- Genre model: surrogate id plus a required `name` text field. -/
structure Genre where
  id : Nat
  name : String
deriving DecidableEq

/-- Language model: surrogate id plus a required `name` text field. -/
structure Language where
  id : Nat
  name : String
deriving DecidableEq

/-- Author model: required `first_name` and `last_name`, optional
`date_of_birth` and `date_of_death` (both `null=True, blank=True`). -/
structure Author where
  id : Nat
  first_name : String
  last_name : String
  date_of_birth : Option Date
  date_of_death : Option Date
deriving DecidableEq

/-- Book model. `author` embeds the foreign key declared
`ForeignKey(Author, on_delete=SET_NULL, null=True)` as an optional Author id;
`language` likewise for Language; `isbn` is declared `unique=True`;
`genre` is the many-to-many association with Genre, held here as the list of
associated Genres in the order the storage collaborator returns them. -/
structure Book where
  id : Nat
  title : String
  author : Option Nat
  summary : String
  isbn : String
  genre : List Genre
  language : Option Nat
deriving DecidableEq

/-- BookInstance model. `id` is the UUID token primary key; `book` embeds
`ForeignKey(Book, on_delete=RESTRICT, null=True)` as an optional Book id;
`borrower` embeds the `ForeignKey(User, on_delete=SET_NULL, null=True)` as an
optional opaque user id; `status` is the one-character tag of the
`CharField(max_length=1, choices=LOAN_STATUS, blank=True, default=STATUS_DEFAULT)`
declaration. -/
structure BookInstance where
  id : String
  book : Option Nat
  imprint : String
  due_back : Option Date
  borrower : Option Nat
  status : String
deriving DecidableEq

/-- The LOAN_STATUS choices tuple from the source: four (code, label) pairs. -/
def LOAN_STATUS : List (String × String) :=
  [("d", "Manutenção"), ("o", "Emprestado"), ("a", "Disponível"), ("r", "Reservado")]

/-- The choice codes of LOAN_STATUS. -/
def statusCodes : List String := LOAN_STATUS.map Prod.fst

/-- The declared default of the `status` field (code "d", Manutenção). -/
def STATUS_DEFAULT : String := "d"

/-- The empty string, used below for blank field values. -/
def blankStr : String := ""

/-- Validation of a `status` value against its declaration
`CharField(max_length=1, choices=LOAN_STATUS, blank=True, default=STATUS_DEFAULT)`:
a value passes iff it is one of the choice codes, or it is the empty value,
which `blank=True` accepts; any other value is rejected as an invalid choice. -/
def validStatus (s : String) : Bool :=
  s == blankStr || statusCodes.contains s

/-- Property `BookInstance.is_overdue`, translated from
`bool(self.due_back and date.today() > self.due_back)`: a None `due_back` is
falsy, so the result is false; otherwise the result is whether today is
strictly after `due_back`. The ambient `date.today()` is passed explicitly. -/
def is_overdue (today : Date) (self : BookInstance) : Bool :=
  match self.due_back with
  | none => false
  | some d => dateLt d today

/-- The separator used by `display_genre`: comma and space. -/
def commaSep : String := ", "

/-- Method `Book.display_genre`, translated from the source: join the `name`
of the first at-most-three associated genres with comma-space. -/
def display_genre (self : Book) : String :=
  String.intercalate commaSep ((self.genre.take 3).map Genre.name)

/-- Author string representation, translated from the source format call:
last name, comma-space, first name. -/
def authorStr (a : Author) : String :=
  a.last_name ++ commaSep ++ a.first_name

/-- Book string representation: the title. -/
def bookStr (b : Book) : String := b.title

/-- Genre string representation: the name. -/
def genreStr (g : Genre) : String := g.name

/-- Language string representation: the name. -/
def languageStr (l : Language) : String := l.name

/-- Database state: the five relations persisted by the storage collaborator. -/
structure DB where
  genres : List Genre
  languages : List Language
  authors : List Author
  books : List Book
  instances : List BookInstance
deriving DecidableEq

/-- Opening parenthesis preceded by a space, for the BookInstance rendering. -/
def openParen : String := " ("

/-- Closing parenthesis, for the BookInstance rendering. -/
def closeParen : String := ")"

/-- BookInstance string representation, translated from the source format
call interpolating `self.id` and `self.book.title`: the id, a space, and the
title of the referenced Book in parentheses. Resolving `self.book` needs the
referenced Book row; when `book` is null the Python attribute access
`self.book.title` dereferences None and raises, modelled here as `none`. -/
def bookInstanceStr (db : DB) (self : BookInstance) : Option String :=
  match self.book with
  | none => none
  | some i =>
    match db.books.find? (fun b => b.id == i) with
    | none => none
    | some b => some (self.id ++ openParen ++ b.title ++ closeParen)

/-- Pairwise distinctness of the `isbn` values of a list of Books. -/
def distinctIsbns : List Book → Bool
  | [] => true
  | b :: bs => bs.all (fun b2 => b.isbn != b2.isbn) && distinctIsbns bs

/-- Modelled from the spec: wellformedness of a database state, the
constraints the storage collaborator enforces for the declarations in the
source — `Book.isbn` is `unique=True` so isbns are pairwise distinct; a
non-null `BookInstance.book` foreign key references an existing Book; every
`status` value passes its field validation. -/
def wf (db : DB) : Bool :=
  distinctIsbns db.books &&
  db.instances.all (fun inst =>
    (match inst.book with
     | none => true
     | some i => db.books.any (fun b => b.id == i)) &&
    validStatus inst.status)

/-- Failure mode of a Book insert: the unique constraint on `isbn`. -/
inductive InsertError where
  | duplicate_isbn
deriving DecidableEq

/-- Modelled from the spec: the storage collaborator insert of a Book under
the `unique=True` declaration on `isbn` — inserting a Book whose `isbn`
equals an existing Book fails with a constraint violation surfaced to the
caller; otherwise the row is appended. -/
def insertBook (db : DB) (b : Book) : Except InsertError DB :=
  if db.books.any (fun b2 => b2.isbn == b.isbn) then
    Except.error InsertError.duplicate_isbn
  else
    Except.ok { db with books := db.books ++ [b] }

/-- Failure mode of a Book delete: the RESTRICT referential action. -/
inductive DeleteError where
  | restricted
deriving DecidableEq

/-- Modelled from the spec: the storage collaborator delete of a Book under
the `on_delete=RESTRICT` declaration on `BookInstance.book` — while any
BookInstance references the Book the deletion fails, surfaced to the caller
unchanged, and no record changes (an error result carries no new state);
otherwise the Book row is removed. -/
def deleteBook (db : DB) (i : Nat) : Except DeleteError DB :=
  if db.instances.any (fun inst => inst.book == some i) then
    Except.error DeleteError.restricted
  else
    Except.ok { db with books := db.books.filter (fun b => b.id != i) }

/-- Modelled from the spec: the storage collaborator delete of an Author
under the `on_delete=SET_NULL` declaration on `Book.author` — the Author row
is removed, and each Book referencing it keeps all its fields except that
`author` becomes null; nothing else changes. -/
def deleteAuthor (db : DB) (i : Nat) : DB :=
  { db with
    authors := db.authors.filter (fun a => a.id != i),
    books := db.books.map (fun b =>
      if b.author == some i then { b with author := none } else b) }

/-- Modelled from the spec: the storage collaborator delete of a Language
under the `on_delete=SET_NULL` declaration on `Book.language` — symmetric to
`deleteAuthor`. -/
def deleteLanguage (db : DB) (i : Nat) : DB :=
  { db with
    languages := db.languages.filter (fun l => l.id != i),
    books := db.books.map (fun b =>
      if b.language == some i then { b with language := none } else b) }

/-- Default ordering declared on the Author Meta class:
ordering by last_name, then first_name. -/
def authorOrd (a b : Author) : Prop :=
  a.last_name < b.last_name ∨ (a.last_name = b.last_name ∧ a.first_name ≤ b.first_name)

instance : DecidableRel authorOrd := fun a b => by
  unfold authorOrd
  exact inferInstance

instance : IsTotal Author authorOrd where
  total a b := by
    unfold authorOrd
    rcases lt_trichotomy a.last_name b.last_name with h | h | h
    · exact Or.inl (Or.inl h)
    · rcases le_total a.first_name b.first_name with hf | hf
      · exact Or.inl (Or.inr ⟨h, hf⟩)
      · exact Or.inr (Or.inr ⟨h.symm, hf⟩)
    · exact Or.inr (Or.inl h)

instance : IsTrans Author authorOrd where
  trans a b c hab hbc := by
    unfold authorOrd at hab hbc ⊢
    rcases hab with h1 | ⟨h1, h1f⟩ <;> rcases hbc with h2 | ⟨h2, h2f⟩
    · exact Or.inl (lt_trans h1 h2)
    · exact Or.inl (h2 ▸ h1)
    · exact Or.inl (h1 ▸ h2)
    · exact Or.inr ⟨h1.trans h2, le_trans h1f h2f⟩

/-- Default ordering declared on the BookInstance Meta class: ascending
`due_back`; a null `due_back` sorts before every date (the NULLS FIRST
ascending order of the SQLite storage collaborator, which the spec leaves to
the chosen storage). -/
def dueOrd (x y : BookInstance) : Prop :=
  match x.due_back, y.due_back with
  | none, _ => True
  | some _, none => False
  | some d1, some d2 => dateLt d2 d1 = false

instance : DecidableRel dueOrd := fun x y => by
  unfold dueOrd
  rcases x.due_back with _ | d1 <;> rcases y.due_back with _ | d2 <;> exact inferInstance

instance : IsTotal BookInstance dueOrd where
  total x y := by
    unfold dueOrd
    rcases x.due_back with _ | d1 <;> rcases y.due_back with _ | d2 <;> simp [dateLt]
    omega

instance : IsTrans BookInstance dueOrd where
  trans x y z hxy hyz := by
    unfold dueOrd at hxy hyz ⊢
    rcases hx : x.due_back with _ | d1 <;> rcases hy : y.due_back with _ | d2 <;>
      rcases hz : z.due_back with _ | d3 <;> simp_all [dateLt] <;> omega

/-- Modelled from the spec: the storage collaborator ordered-query execution
listing all Authors under the declared default ordering. -/
def listAuthors (db : DB) : List Author :=
  List.insertionSort authorOrd db.authors

/-- Modelled from the spec: the storage collaborator ordered-query execution
listing all BookInstances under the declared default ordering. -/
def listBookInstances (db : DB) : List BookInstance :=
  List.insertionSort dueOrd db.instances

/-- Creation of a BookInstance with every field supplied except `status`,
which takes the declared default STATUS_DEFAULT; the id argument stands for
the fresh UUID token the id field default generates. -/
def newBookInstance (id : String) (book : Option Nat) (imprint : String)
    (due_back : Option Date) (borrower : Option Nat) : BookInstance :=
  { id := id, book := book, imprint := imprint, due_back := due_back,
    borrower := borrower, status := STATUS_DEFAULT }

/-! Helper lemmas -/

lemma intercalate_two (a b : String) :
    String.intercalate commaSep [a, b] = a ++ commaSep ++ b := rfl

lemma intercalate_three (a b c : String) :
    String.intercalate commaSep [a, b, c] = a ++ commaSep ++ b ++ commaSep ++ c := rfl

/-! Claim theorems -/

/-- C1: for every BookInstance, `is_overdue` is true iff `due_back` is set
and the current date is strictly after `due_back`; with `due_back` unset,
`is_overdue` is false rather than an error. -/
theorem C1_is_overdue_iff (today : Date) (inst : BookInstance) :
    (is_overdue today inst = true ↔
      ∃ d, inst.due_back = some d ∧ dateLt d today = true) ∧
    (inst.due_back = none → is_overdue today inst = false) := by
  unfold is_overdue
  rcases h : inst.due_back with _ | d
  · simp
  · simp [h]

/-- C1 witness: a concrete instance due back 2026-10-01 is overdue on
2026-10-12, evaluated through the theorem. -/
def instC1 : BookInstance :=
  { id := "c1", book := none, imprint := "i", due_back := some ⟨2026, 10, 1⟩,
    borrower := none, status := "o" }

theorem C1_witness : is_overdue ⟨2026, 10, 12⟩ instC1 = true :=
  (C1_is_overdue_iff ⟨2026, 10, 12⟩ instC1).1.mpr ⟨⟨2026, 10, 1⟩, rfl, by decide⟩

/-- C2: deleting a Book referenced by an existing BookInstance fails with the
restrict error and produces no successor state, so both the Book and the
referencing BookInstance records are unchanged — no cascade, no null-out,
no retry. -/
theorem C2_deleteBook_restricted (db : DB) (inst : BookInstance) (i : Nat)
    (hmem : inst ∈ db.instances) (href : inst.book = some i) :
    deleteBook db i = Except.error DeleteError.restricted ∧
    ∀ db2, deleteBook db i ≠ Except.ok db2 := by
  have hany : db.instances.any (fun ins => ins.book == some i) = true :=
    List.any_eq_true.mpr ⟨inst, hmem, by simp [href]⟩
  refine ⟨by simp [deleteBook, hany], fun db2 => by simp [deleteBook, hany]⟩

/-- C2 witness: concrete one-book, one-instance state. -/
def bookC2 : Book :=
  { id := 7, title := "T", author := none, summary := "s", isbn := "i2",
    genre := [], language := none }

def instC2 : BookInstance :=
  { id := "c2", book := some 7, imprint := "i", due_back := none,
    borrower := none, status := "a" }

def dbC2 : DB :=
  { genres := [], languages := [], authors := [], books := [bookC2],
    instances := [instC2] }

theorem C2_witness :
    deleteBook dbC2 7 = Except.error DeleteError.restricted :=
  (C2_deleteBook_restricted dbC2 instC2 7 (by decide) rfl).1

/-- C4: `display_genre` joins the names of at most the first three associated
genres with comma-space, in association order: with genres g1, g2, g3
followed by any rest it yields exactly the three names regardless of the
rest, and with exactly two genres it joins both. -/
theorem C4_display_genre (b b2 : Book) (g1 g2 g3 : Genre) (rest : List Genre)
    (h3 : b.genre = g1 :: g2 :: g3 :: rest) (h2 : b2.genre = [g1, g2]) :
    display_genre b = g1.name ++ commaSep ++ g2.name ++ commaSep ++ g3.name ∧
    display_genre b2 = g1.name ++ commaSep ++ g2.name := by
  constructor
  · rw [display_genre, h3]
    simp only [List.take_succ_cons, List.take_zero, List.map_cons, List.map_nil]
    exact intercalate_three g1.name g2.name g3.name
  · rw [display_genre, h2]
    simp only [List.take_succ_cons, List.take_zero, List.take_cons, List.map_cons, List.map_nil]
    exact intercalate_two g1.name g2.name

/-- C4 witness: on five genres named A, B, C, D, E the projection returns
the string joining exactly the first three. -/
def gA : Genre := { id := 1, name := "A" }

def gB : Genre := { id := 2, name := "B" }

def gC : Genre := { id := 3, name := "C" }

def gD : Genre := { id := 4, name := "D" }

def gE : Genre := { id := 5, name := "E" }

def bookC4 : Book :=
  { id := 4, title := "B5", author := none, summary := "s", isbn := "i4",
    genre := [gA, gB, gC, gD, gE], language := none }

def bookC4b : Book :=
  { id := 5, title := "B2", author := none, summary := "s", isbn := "i4b",
    genre := [gA, gB], language := none }

def strABC : String := "A, B, C"

theorem C4_witness : display_genre bookC4 = strABC :=
  ((C4_display_genre bookC4 bookC4b gA gB gC [gD, gE] rfl rfl).1).trans (by decide)

/-- C9: a BookInstance whose `book` reference is set and resolves to Book b
renders as its id, a space, and the title of b in parentheses; an Author
renders as last name, comma-space, first name. -/
theorem C9_str_formats (db : DB) (inst : BookInstance) (i : Nat) (b : Book)
    (a : Author) (hbk : inst.book = some i)
    (hfind : db.books.find? (fun bb => bb.id == i) = some b) :
    bookInstanceStr db inst = some (inst.id ++ openParen ++ b.title ++ closeParen) ∧
    authorStr a = a.last_name ++ commaSep ++ a.first_name := by
  refine ⟨by simp [bookInstanceStr, hbk, hfind], rfl⟩

/-- C9 witness: concrete state where the rendering evaluates fully. -/
def bookC9 : Book :=
  { id := 5, title := "Dom Casmurro", author := none, summary := "s",
    isbn := "i9", genre := [], language := none }

def instC9 : BookInstance :=
  { id := "u9", book := some 5, imprint := "i", due_back := none,
    borrower := none, status := "a" }

def dbC9 : DB :=
  { genres := [], languages := [], authors := [], books := [bookC9],
    instances := [instC9] }

def authC9 : Author :=
  { id := 1, first_name := "Joaquim", last_name := "Machado",
    date_of_birth := none, date_of_death := none }

def strC9 : String := "u9 (Dom Casmurro)"

def strC9a : String := "Machado, Joaquim"

theorem C9_witness :
    bookInstanceStr dbC9 instC9 = some strC9 ∧ authorStr authC9 = strC9a :=
  ⟨((C9_str_formats dbC9 instC9 5 bookC9 authC9 rfl rfl).1).trans (by decide),
   ((C9_str_formats dbC9 instC9 5 bookC9 authC9 rfl rfl).2).trans (by decide)⟩

/-- C10: the string representation is not total on a null `book` reference:
the declaration null=True admits such an instance (a wellformed state may
contain it), and the rendering dereferences the null reference and produces
no string — in the Python source the attribute access raises. -/
theorem C10_str_null_book (db : DB) (inst : BookInstance)
    (h : inst.book = none) (hs : validStatus inst.status = true) :
    bookInstanceStr db inst = none ∧
    wf { genres := [], languages := [], authors := [], books := [],
         instances := [inst] } = true := by
  refine ⟨by simp [bookInstanceStr, h], ?_⟩
  simp [wf, distinctIsbns, h, hs]

/-- C10 witness: a concrete instance with null book renders to no string. -/
def instC10 : BookInstance :=
  { id := "u10", book := none, imprint := "i", due_back := none,
    borrower := none, status := "d" }

def dbC10 : DB :=
  { genres := [], languages := [], authors := [], books := [],
    instances := [instC10] }

theorem C10_witness : bookInstanceStr dbC10 instC10 = none :=
  (C10_str_null_book dbC10 instC10 rfl (by decide)).1

/-- C3 counterexample: a wellformed state contains a BookInstance whose book
reference is null — the field declaration null=True permits it, so the
reference is not a required one that always resolves. -/
def instC3 : BookInstance :=
  { id := "u3", book := none, imprint := "i", due_back := none,
    borrower := none, status := "d" }

def dbC3 : DB :=
  { genres := [], languages := [], authors := [], books := [],
    instances := [instC3] }

theorem C3_counterexample :
    wf dbC3 = true ∧ instC3 ∈ dbC3.instances ∧ instC3.book = none := by decide

/-- C3 (amended): the book reference of a BookInstance is nullable, per the
declaration null=True, rather than required; whenever it is set in a
wellformed state it resolves to an existing (live) Book. -/
theorem C3_book_resolves (db : DB) (inst : BookInstance) (i : Nat)
    (hwf : wf db = true) (hmem : inst ∈ db.instances)
    (href : inst.book = some i) :
    ∃ b ∈ db.books, b.id = i := by
  have h2 := (Bool.and_eq_true_iff.mp hwf).2
  have h3 := (Bool.and_eq_true_iff.mp (List.all_eq_true.mp h2 inst hmem)).1
  rw [href] at h3
  obtain ⟨b, hb, hbi⟩ := List.any_eq_true.mp h3
  exact ⟨b, hb, by simpa using hbi⟩

/-- C3 witness: concrete state where the set reference resolves. -/
def bookC3 : Book :=
  { id := 3, title := "T3", author := none, summary := "s", isbn := "i3",
    genre := [], language := none }

def instC3b : BookInstance :=
  { id := "u3b", book := some 3, imprint := "i", due_back := none,
    borrower := none, status := "a" }

def dbC3b : DB :=
  { genres := [], languages := [], authors := [], books := [bookC3],
    instances := [instC3b] }

theorem C3_witness : ∃ b ∈ dbC3b.books, b.id = 3 :=
  C3_book_resolves dbC3b instC3b 3 (by decide) (by decide) rfl

/-- Appending a Book with a fresh isbn preserves pairwise distinctness. -/
lemma distinctIsbns_append (l : List Book) (b : Book)
    (hl : distinctIsbns l = true)
    (hb : ∀ b2 ∈ l, (b2.isbn == b.isbn) = false) :
    distinctIsbns (l ++ [b]) = true := by
  induction l with
  | nil => simp [distinctIsbns]
  | cons x xs ih =>
    have hl1 : xs.all (fun b2 => x.isbn != b2.isbn) = true := (Bool.and_eq_true_iff.mp hl).1
    have hl2 : distinctIsbns xs = true := (Bool.and_eq_true_iff.mp hl).2
    have hx : (x.isbn == b.isbn) = false := hb x (List.mem_cons_self x xs)
    have hb2 : ∀ b2 ∈ xs, (b2.isbn == b.isbn) = false :=
      fun b2 h2 => hb b2 (List.mem_cons_of_mem x h2)
    rw [List.cons_append]
    show ((xs ++ [b]).all (fun b2 => x.isbn != b2.isbn) && distinctIsbns (xs ++ [b])) = true
    rw [Bool.and_eq_true, List.all_append]
    refine ⟨Bool.and_eq_true_iff.mpr ⟨hl1, ?_⟩, ih hl2 hb2⟩
    simp [bne, hx]

/-- C5: isbn values are unique — inserting a Book whose isbn equals an
existing Book fails with the duplicate-isbn constraint violation, and a
successful insert preserves pairwise distinctness of the stored isbns. -/
theorem C5_isbn_unique (db : DB) (b : Book) :
    (∀ b2 ∈ db.books, b2.isbn = b.isbn →
      insertBook db b = Except.error InsertError.duplicate_isbn) ∧
    (∀ db2, insertBook db b = Except.ok db2 → distinctIsbns db.books = true →
      distinctIsbns db2.books = true) := by
  constructor
  · intro b2 hmem heq
    have hany : db.books.any (fun b3 => b3.isbn == b.isbn) = true :=
      List.any_eq_true.mpr ⟨b2, hmem, by simp [heq]⟩
    simp [insertBook, hany]
  · intro db2 hok hdist
    unfold insertBook at hok
    split at hok
    · exact Except.noConfusion hok
    · next hany =>
      injection hok with h
      subst h
      have hb : ∀ b2 ∈ db.books, (b2.isbn == b.isbn) = false := by
        intro b2 h2
        rcases hbe : (b2.isbn == b.isbn) with _ | _
        · rfl
        · exact absurd (List.any_eq_true.mpr ⟨b2, h2, hbe⟩) hany
      exact distinctIsbns_append db.books b hdist hb

/-- C5 witness: a duplicate insert fails concretely, and a fresh insert
keeps the isbns distinct. -/
def bookC5 : Book :=
  { id := 11, title := "T5", author := none, summary := "s", isbn := "i5",
    genre := [], language := none }

def bookC5dup : Book :=
  { id := 12, title := "T5d", author := none, summary := "s", isbn := "i5",
    genre := [], language := none }

def bookC5new : Book :=
  { id := 13, title := "T5n", author := none, summary := "s", isbn := "i5n",
    genre := [], language := none }

def dbC5 : DB :=
  { genres := [], languages := [], authors := [], books := [bookC5],
    instances := [] }

theorem C5_witness :
    insertBook dbC5 bookC5dup = Except.error InsertError.duplicate_isbn ∧
    distinctIsbns (dbC5.books ++ [bookC5new]) = true :=
  ⟨(C5_isbn_unique dbC5 bookC5dup).1 bookC5 (by decide) rfl,
   (C5_isbn_unique dbC5 bookC5new).2
     { dbC5 with books := dbC5.books ++ [bookC5new] } rfl (by decide)⟩

/-- C6: deleting an Author referenced by Book b succeeds and leaves b
persisted with author set to null and every other field unchanged; the
Author row is removed, no Book is deleted (the book count is preserved) and
the instances are untouched; the same set-null-on-delete rule holds for the
language reference under deleteLanguage. -/
theorem C6_set_null_on_delete (db : DB) (b : Book) (aid lid : Nat)
    (hmem : b ∈ db.books) :
    (b.author = some aid →
      ({ id := b.id, title := b.title, author := none, summary := b.summary,
         isbn := b.isbn, genre := b.genre, language := b.language } : Book)
        ∈ (deleteAuthor db aid).books ∧
      (∀ a ∈ (deleteAuthor db aid).authors, a.id ≠ aid) ∧
      (deleteAuthor db aid).books.length = db.books.length ∧
      (deleteAuthor db aid).instances = db.instances) ∧
    (b.language = some lid →
      ({ id := b.id, title := b.title, author := b.author, summary := b.summary,
         isbn := b.isbn, genre := b.genre, language := none } : Book)
        ∈ (deleteLanguage db lid).books ∧
      (∀ l ∈ (deleteLanguage db lid).languages, l.id ≠ lid) ∧
      (deleteLanguage db lid).books.length = db.books.length ∧
      (deleteLanguage db lid).instances = db.instances) := by
  constructor
  · intro ha
    refine ⟨?_, ?_, by simp [deleteAuthor], rfl⟩
    · have h1 := List.mem_map_of_mem
        (fun b2 => if b2.author == some aid then { b2 with author := none } else b2) hmem
      simp only [ha] at h1
      simpa [deleteAuthor] using h1
    · intro a hain
      have h2 := List.mem_filter.mp hain
      simpa using h2.2
  · intro hl
    refine ⟨?_, ?_, by simp [deleteLanguage], rfl⟩
    · have h1 := List.mem_map_of_mem
        (fun b2 => if b2.language == some lid then { b2 with language := none } else b2) hmem
      simp only [hl] at h1
      simpa [deleteLanguage] using h1
    · intro l hlin
      have h2 := List.mem_filter.mp hlin
      simpa using h2.2

/-- C6 witness: concrete author, language and referencing book. -/
def authC6 : Author :=
  { id := 2, first_name := "F", last_name := "L", date_of_birth := none,
    date_of_death := none }

def langC6 : Language :=
  { id := 3, name := "Português" }

def bookC6 : Book :=
  { id := 9, title := "T6", author := some 2, summary := "s", isbn := "i6",
    genre := [], language := some 3 }

def bookC6n : Book :=
  { id := 9, title := "T6", author := none, summary := "s", isbn := "i6",
    genre := [], language := some 3 }

def dbC6 : DB :=
  { genres := [], languages := [langC6], authors := [authC6],
    books := [bookC6], instances := [] }

theorem C6_witness :
    bookC6n ∈ (deleteAuthor dbC6 2).books ∧
    (deleteAuthor dbC6 2).books.length = dbC6.books.length :=
  ⟨((C6_set_null_on_delete dbC6 bookC6 2 3 (by decide)).1 rfl).1,
   ((C6_set_null_on_delete dbC6 bookC6 2 3 (by decide)).1 rfl).2.2.1⟩

/-- C7 counterexample: because the status field declares blank=True, the
empty string passes the field validation although it is not one of the four
choice codes, and a wellformed state may hold an instance with blank
status — so status is not always one of exactly the four codes. -/
def instC7 : BookInstance :=
  { id := "u7", book := none, imprint := "i", due_back := none,
    borrower := none, status := "" }

def dbC7 : DB :=
  { genres := [], languages := [], authors := [], books := [],
    instances := [instC7] }

theorem C7_counterexample :
    validStatus instC7.status = true ∧
    statusCodes.contains instC7.status = false ∧
    wf dbC7 = true := by decide

/-- C7 (amended): a status value passes its field validation iff it is one
of the four choice codes d, o, a, r (Manutenção, Emprestado, Disponível,
Reservado) or the blank value admitted by blank=True; LOAN_STATUS carries
exactly those four codes, and a BookInstance created without an explicit
status carries the default code d. -/
theorem C7_status_codes (s id2 imp : String) (bk bor : Option Nat)
    (due : Option Date) :
    (validStatus s = true ↔ s ∈ statusCodes ∨ s = blankStr) ∧
    statusCodes = [STATUS_DEFAULT, "o", "a", "r"] ∧
    STATUS_DEFAULT = "d" ∧
    (newBookInstance id2 bk imp due bor).status = STATUS_DEFAULT := by
  refine ⟨?_, rfl, rfl, rfl⟩
  rw [show validStatus s = (s == blankStr || statusCodes.contains s) from rfl,
    Bool.or_eq_true, beq_iff_eq]
  constructor
  · rintro (h | h)
    · exact Or.inr h
    · exact Or.inl (by simpa using h)
  · rintro (h | h)
    · exact Or.inr (by simpa using h)
    · exact Or.inl h

/-- C7 witness: the code o passes validation and the default applies. -/
def stO : String := "o"

theorem C7_witness :
    validStatus stO = true ∧
    (newBookInstance stO none stO none none).status = STATUS_DEFAULT :=
  ⟨(C7_status_codes stO stO stO none none none).1.mpr (Or.inl (by decide)),
   (C7_status_codes stO stO stO none none none).2.2.2⟩

/-- C8: listing all Authors yields a permutation of the stored Authors
sorted by (last_name, first_name); listing all BookInstances yields a
permutation of the stored instances sorted ascending by due_back. -/
theorem C8_default_ordering (db : DB) :
    List.Perm (listAuthors db) db.authors ∧
    List.Sorted authorOrd (listAuthors db) ∧
    List.Perm (listBookInstances db) db.instances ∧
    List.Sorted dueOrd (listBookInstances db) :=
  ⟨List.perm_insertionSort authorOrd db.authors,
   List.sorted_insertionSort authorOrd db.authors,
   List.perm_insertionSort dueOrd db.instances,
   List.sorted_insertionSort dueOrd db.instances⟩

end Catalog
